import Mathlib

/-!
Verification of the Task-Automation-Bot reminder core.

This file gives a shallow embedding of the reminder subsystem of the
repository (src/reminders.py: `ReminderManager`, and src/main.py:
`TaskAutomationBot.process_command` / `_handle_set_reminder`) and proves or
refutes the specified properties about it.

Python strings are modelled as `List Char`; `datetime` instants are modelled
as an integer day number plus microseconds-of-day (the resolution of
`datetime`); `datetime.timestamp()` values are modelled in integer
microseconds.  Fallible operations return `Option`; a raised exception that
escapes a function is modelled explicitly where a claim depends on it.
-/

/-- Convenience: the character list of a string literal. -/
def cstr (s : String) : List Char := s.toList

/-- Whitespace test matching Python `str.strip` / `str.split()` defaults
(space, tab, newline, carriage return, vertical tab, form feed). -/
def isWs (c : Char) : Bool :=
  c == ' ' || c == '\t' || c == '\n' || c == '\r' || c.toNat == 11 || c.toNat == 12

/-- Python `str.strip()`: drop leading and trailing whitespace. -/
def pyStrip (s : List Char) : List Char :=
  ((s.dropWhile isWs).reverse.dropWhile isWs).reverse

/-- Python `str.lower()` restricted to ASCII letters (every string the
program feeds through `lower` in the modelled paths is ASCII). -/
def lowerChar (c : Char) : Char :=
  if 'A' ≤ c ∧ c ≤ 'Z' then Char.ofNat (c.toNat + 32) else c

/-- Python `str.lower()` on a whole string. -/
def pyLower (s : List Char) : List Char := s.map lowerChar

/-- Python substring containment `needle in haystack`. -/
def containsSub (needle : List Char) : List Char → Bool
  | [] => needle.isEmpty
  | c :: rest => needle.isPrefixOf (c :: rest) || containsSub needle rest

/-- Python `haystack.split(sep, 1)` when `sep` occurs: the parts before and
after the first occurrence.  `none` when `sep` does not occur (Python would
return the one-element list `[haystack]`). -/
def splitOnce (sep : List Char) : List Char → Option (List Char × List Char)
  | [] => if sep.isEmpty then some ([], []) else none
  | c :: rest =>
    if sep.isPrefixOf (c :: rest) then some ([], (c :: rest).drop sep.length)
    else
      match splitOnce sep rest with
      | some (pre, post) => some (c :: pre, post)
      | none => none

/-- Python `s.split(sep)` for a one-character separator, no limit. -/
def splitChar (sep : Char) : List Char → List (List Char)
  | [] => [[]]
  | c :: rest =>
    if c == sep then [] :: splitChar sep rest
    else
      match splitChar sep rest with
      | p :: ps => (c :: p) :: ps
      | [] => [[c]]

/-- Helper for `wsTokens`: accumulates the current (reversed) token. -/
def wsTokensAux : List Char → List Char → List (List Char)
  | acc, [] => if acc.isEmpty then [] else [acc.reverse]
  | acc, c :: rest =>
    if isWs c then
      if acc.isEmpty then wsTokensAux [] rest else acc.reverse :: wsTokensAux [] rest
    else wsTokensAux (c :: acc) rest

/-- Python `s.split()` with no arguments: whitespace-run tokenisation with
empty tokens discarded. -/
def wsTokens (s : List Char) : List (List Char) := wsTokensAux [] s

/-- Decimal digit value of a character, if it is a digit. -/
def digitVal (c : Char) : Option Nat :=
  if '0' ≤ c ∧ c ≤ '9' then some (c.toNat - 48) else none

/-- Helper for `digitsVal`. -/
def digitsValAux : Nat → List Char → Option Nat
  | acc, [] => some acc
  | acc, c :: rest =>
    match digitVal c with
    | some d => digitsValAux (acc * 10 + d) rest
    | none => none

/-- Value of a non-empty all-digit string. -/
def digitsVal : List Char → Option Nat
  | [] => none
  | c :: rest => digitsValAux 0 (c :: rest)

/-- Python `int(s)`: optional surrounding whitespace, optional sign, digits.
(Underscore digit grouping is not modelled; no input of the program uses it.) -/
def pyInt (s : List Char) : Option Int :=
  match pyStrip s with
  | '-' :: rest => (digitsVal rest).map (fun n => -(n : Int))
  | '+' :: rest => (digitsVal rest).map (fun n => (n : Int))
  | t => (digitsVal t).map (fun n => (n : Int))

/-!
`datetime.strptime` directive matchers.  CPython compiles each format into a
regex; each directive below lists its alternatives in the regex's ordered
(backtracking) order, returning every possible (value, rest-of-input) pair,
longest-preferred exactly as the regex engine would try them.
  %I = `1[0-2]|0[1-9]|[1-9]`, %H = `2[0-3]|[0-1]\d|\d`, %M = `[0-5]\d|\d`,
  %p = `am|pm` (input is already lower-cased), a space in the format = `\s+`.
-/

/-- Matcher for `%I` (12-hour hour). -/
def matchI : List Char → List (Nat × List Char)
  | [] => []
  | c :: rest =>
    (match c, rest with
     | '1', d :: rest2 => if '0' ≤ d ∧ d ≤ '2' then [(10 + (d.toNat - 48), rest2)] else []
     | _, _ => [])
    ++ (match c, rest with
     | '0', d :: rest2 => if '1' ≤ d ∧ d ≤ '9' then [(d.toNat - 48, rest2)] else []
     | _, _ => [])
    ++ (if '1' ≤ c ∧ c ≤ '9' then [(c.toNat - 48, rest)] else [])

/-- Matcher for `%H` (24-hour hour). -/
def matchH : List Char → List (Nat × List Char)
  | [] => []
  | c :: rest =>
    (match c, rest with
     | '2', d :: rest2 => if '0' ≤ d ∧ d ≤ '3' then [(20 + (d.toNat - 48), rest2)] else []
     | _, _ => [])
    ++ (match rest with
     | d :: rest2 =>
       if ('0' ≤ c ∧ c ≤ '1') ∧ ('0' ≤ d ∧ d ≤ '9') then
         [(10 * (c.toNat - 48) + (d.toNat - 48), rest2)]
       else []
     | [] => [])
    ++ (if '0' ≤ c ∧ c ≤ '9' then [(c.toNat - 48, rest)] else [])

/-- Matcher for `%M` (minute). -/
def matchM : List Char → List (Nat × List Char)
  | [] => []
  | c :: rest =>
    (match rest with
     | d :: rest2 =>
       if ('0' ≤ c ∧ c ≤ '5') ∧ ('0' ≤ d ∧ d ≤ '9') then
         [(10 * (c.toNat - 48) + (d.toNat - 48), rest2)]
       else []
     | [] => [])
    ++ (if '0' ≤ c ∧ c ≤ '9' then [(c.toNat - 48, rest)] else [])

/-- Matcher for `%p`: 0 = am, 1 = pm (input lower-cased by the caller). -/
def matchP : List Char → List (Nat × List Char)
  | 'a' :: 'm' :: rest => [(0, rest)]
  | 'p' :: 'm' :: rest => [(1, rest)]
  | _ => []

/-- Matcher for a format-string space (regex `\s+`): all possible rests after
consuming at least one whitespace character, greedy first. -/
def wsPlus : List Char → List (List Char)
  | [] => []
  | c :: rest => if isWs c then wsPlus rest ++ [rest] else []

/-- CPython `_strptime` hour fix-up when `%I` is combined with `%p`
(12 am becomes 0; pm adds 12 except for 12 pm). -/
def meridAdjust (h p : Nat) : Nat :=
  if p = 1 then (if h = 12 then 12 else h + 12)
  else (if h = 12 then 0 else h)

/-- `strptime(s, "%I:%M %p")`, as hour and minute of the parsed time. -/
def fmt_I_M_sp_p (s : List Char) : Option (Nat × Nat) :=
  (matchI s).findSome? fun ih =>
    match ih.2 with
    | ':' :: s2 =>
      (matchM s2).findSome? fun mh =>
        (wsPlus mh.2).findSome? fun s3 =>
          (matchP s3).findSome? fun ph =>
            if ph.2.isEmpty then some (meridAdjust ih.1 ph.1, mh.1) else none
    | _ => none

/-- `strptime(s, "%I:%M%p")`. -/
def fmt_I_M_p (s : List Char) : Option (Nat × Nat) :=
  (matchI s).findSome? fun ih =>
    match ih.2 with
    | ':' :: s2 =>
      (matchM s2).findSome? fun mh =>
        (matchP mh.2).findSome? fun ph =>
          if ph.2.isEmpty then some (meridAdjust ih.1 ph.1, mh.1) else none
    | _ => none

/-- `strptime(s, "%I %p")`. -/
def fmt_I_sp_p (s : List Char) : Option (Nat × Nat) :=
  (matchI s).findSome? fun ih =>
    (wsPlus ih.2).findSome? fun s2 =>
      (matchP s2).findSome? fun ph =>
        if ph.2.isEmpty then some (meridAdjust ih.1 ph.1, 0) else none

/-- `strptime(s, "%I%p")`. -/
def fmt_I_p (s : List Char) : Option (Nat × Nat) :=
  (matchI s).findSome? fun ih =>
    (matchP ih.2).findSome? fun ph =>
      if ph.2.isEmpty then some (meridAdjust ih.1 ph.1, 0) else none

/-- `strptime(s, "%I:%M")` (no meridiem: hour kept as matched). -/
def fmt_I_M (s : List Char) : Option (Nat × Nat) :=
  (matchI s).findSome? fun ih =>
    match ih.2 with
    | ':' :: s2 =>
      (matchM s2).findSome? fun mh =>
        if mh.2.isEmpty then some (ih.1, mh.1) else none
    | _ => none

/-- `strptime(s, "%I")`. -/
def fmt_I (s : List Char) : Option (Nat × Nat) :=
  (matchI s).findSome? fun ih =>
    if ih.2.isEmpty then some (ih.1, 0) else none

/-- `strptime(s, "%H:%M")`. -/
def fmt_H_M (s : List Char) : Option (Nat × Nat) :=
  (matchH s).findSome? fun hh =>
    match hh.2 with
    | ':' :: s2 =>
      (matchM s2).findSome? fun mh =>
        if mh.2.isEmpty then some (hh.1, mh.1) else none
    | _ => none

/-- `strptime(s, "%H")`. -/
def fmt_H (s : List Char) : Option (Nat × Nat) :=
  (matchH s).findSome? fun hh =>
    if hh.2.isEmpty then some (hh.1, 0) else none

/-- The `time_formats` list of `add_reminder` (reminders.py lines 53-62), in
source order. -/
def time_formats : List (List Char → Option (Nat × Nat)) :=
  [fmt_I_M_sp_p, fmt_I_M_p, fmt_I_sp_p, fmt_I_p, fmt_I_M, fmt_I, fmt_H_M, fmt_H]

/-- The format loop of `add_reminder` (reminders.py lines 64-70): the eight
formats are attempted in priority order and the first success wins. -/
def strptimeFormats (s : List Char) : Option (Nat × Nat) :=
  time_formats.findSome? fun f => f s

/-- The manual fallback of `add_reminder` (reminders.py lines 72-83): split
on the colon, `int(parts[0])` for the hour, first whitespace token of
`parts[1]` for the minute, both range-checked.  Any raised `ValueError` or
`IndexError` on this path makes `add_reminder` return `False`, so those
outcomes are all `none` here. -/
def manualParse (s : List Char) : Option (Nat × Nat) :=
  match splitChar ':' s with
  | [p0, p1] =>
    match pyInt p0, (wsTokens p1).head?.bind pyInt with
    | some hours, some minutes =>
      if 0 ≤ hours ∧ hours ≤ 23 ∧ 0 ≤ minutes ∧ minutes ≤ 59 then
        some (hours.toNat, minutes.toNat)
      else none
    | _, _ => none
  | _ => none

/-- Time parsing exactly as performed inside `add_reminder`
(reminders.py lines 50-86): lower-case, strip, try the eight `strptime`
formats in order, then the manual fallback. -/
def parse_time_str (raw : List Char) : Option (Nat × Nat) :=
  let t := pyStrip (pyLower raw)
  match strptimeFormats t with
  | some hm => some hm
  | none => manualParse t

/-!  The reminder store (reminders.py, class `ReminderManager`). -/

/-- A stored reminder: the dict
`{"task": ..., "time": strftime("%Y-%m-%d %I:%M %p"), "timestamp": ...}`
built in `add_reminder` (reminders.py lines 95-99).  `timestamp` is the fire
instant in integer microseconds since the epoch (Python stores float epoch
seconds at microsecond resolution; JSON round-trips them exactly). -/
structure Reminder where
  task : List Char
  time : List Char
  timestamp : Int
deriving DecidableEq

/-- Microseconds in a day. -/
def microsPerDay : Int := 86400000000

/-- Microseconds-of-day of a parsed wall-clock time. -/
def timeMicros (h m : Nat) : Int := ((h * 3600 + m * 60) * 1000000 : Nat)

/-- Decimal digits of a natural number (fuel-based helper). -/
def natDigitsAux : Nat → Nat → List Char
  | 0, _ => []
  | fuel + 1, n =>
    if n < 10 then [Char.ofNat (48 + n)]
    else natDigitsAux fuel (n / 10) ++ [Char.ofNat (48 + n % 10)]

/-- Decimal digits of a natural number. -/
def natDigits (n : Nat) : List Char := natDigitsAux (n + 1) n

/-- Decimal rendering left-padded with zeros to the given width. -/
def padNat (width n : Nat) : List Char :=
  let d := natDigits n
  List.replicate (width - d.length) '0' ++ d

/-- Gregorian calendar date of a day number (days since 1970-01-01),
standard civil-from-days conversion, used to model `strftime("%Y-%m-%d")`. -/
def civilFromDays (z0 : Int) : Int × Nat × Nat :=
  let z : Int := z0 + 719468
  let era : Int := (if 0 ≤ z then z else z - 146096) / 146097
  let doe : Nat := (z - era * 146097).toNat
  let yoe : Nat := (doe - doe / 1460 + doe / 36524 - doe / 146096) / 365
  let doy : Nat := doe - (365 * yoe + yoe / 4 - yoe / 100)
  let mp : Nat := (5 * doy + 2) / 153
  let d : Nat := doy - (153 * mp + 2) / 5 + 1
  let mo : Nat := if mp < 10 then mp + 3 else mp - 9
  ((yoe : Int) + era * 400 + (if mo ≤ 2 then 1 else 0), mo, d)

/-- The display string `reminder_time.strftime("%Y-%m-%d %I:%M %p")`
(reminders.py line 97) for the reminder date `day` and wall-clock `h:m`. -/
def strftimeDisplay (day : Int) (h m : Nat) : List Char :=
  let ymd := civilFromDays day
  let yStr := if ymd.1 < 0 then '-' :: padNat 4 (-ymd.1).toNat else padNat 4 ymd.1.toNat
  let hour12 := (h + 11) % 12 + 1
  let ap := if h < 12 then cstr "AM" else cstr "PM"
  yStr ++ '-' :: padNat 2 ymd.2.1 ++ '-' :: padNat 2 ymd.2.2 ++
    ' ' :: padNat 2 hour12 ++ ':' :: padNat 2 m ++ ' ' :: ap

/-- `ReminderManager.add_reminder` (reminders.py lines 37-107) at the mocked
current instant `nowDay` (day number) + `nowMicro` (microseconds of day).
Returns (result, new in-memory list, whether `save_reminders` was reached).
On parse failure it returns `False` having touched nothing; otherwise the
fire instant is today at the parsed time, bumped by one day when that
instant is strictly before now (line 92: `if reminder_time < now`). -/
def add_reminder (task time_str : List Char) (nowDay : Int) (nowMicro : Nat)
    (st : List Reminder) : Bool × List Reminder × Bool :=
  match parse_time_str time_str with
  | none => (false, st, false)
  | some (h, m) =>
    let nowTs : Int := nowDay * microsPerDay + nowMicro
    let combined : Int := nowDay * microsPerDay + timeMicros h m
    let fireDay : Int := if combined < nowTs then nowDay + 1 else nowDay
    let fireTs : Int := if combined < nowTs then combined + microsPerDay else combined
    (true, st ++ [⟨task, strftimeDisplay fireDay h m, fireTs⟩], true)

/-- The match test of `remove_reminder` (reminders.py line 124):
`reminder["task"].lower() == task.lower()`. -/
def matchesTask (task : List Char) (r : Reminder) : Bool :=
  pyLower r.task == pyLower task

/-- `ReminderManager.remove_reminder` (reminders.py lines 113-128): delete
the first case-insensitive task match and persist; otherwise change nothing.
Returns (result, new list, whether `save_reminders` was reached). -/
def remove_reminder (task : List Char) : List Reminder → Bool × List Reminder × Bool
  | [] => (false, [], false)
  | r :: rest =>
    if matchesTask task r then (true, rest, true)
    else
      match remove_reminder task rest with
      | (b, rest2, w) => (b, r :: rest2, w)

/-- The due test of `_check_reminders` (reminders.py line 138):
`current_timestamp >= reminder["timestamp"]`. -/
def isDue (nowTs : Int) (r : Reminder) : Bool := decide (r.timestamp ≤ nowTs)

/-- The announcement text (reminders.py line 139). -/
def speakMsg (r : Reminder) : List Char := cstr "Reminder: " ++ r.task

/-- `self.reminders.remove(reminder)` (reminders.py line 140): delete the
first element equal (as a Python dict, i.e. field-wise) to `r`. -/
def removeFirst (r : Reminder) : List Reminder → List Reminder
  | [] => []
  | x :: xs => if x = r then xs else x :: removeFirst r xs

/-- One iteration of the `for reminder in self.reminders[:]` loop of
`_check_reminders` (reminders.py lines 137-141).  `snapshot` is the copied
list still to visit, `live` the current `self.reminders`, `fired` the
reminders announced so far.  `speakOk msg = false` models
`self.speak(msg)` raising: the exception propagates out of
`_check_reminders` (there is no handler), so the walk stops and the third
component reports the crash of the background thread. -/
def checkGo (speakOk : List Char → Bool) (nowTs : Int) :
    List Reminder → List Reminder → List Reminder →
    List Reminder × List Reminder × Bool
  | [], live, fired => (live, fired, false)
  | r :: rest, live, fired =>
    if isDue nowTs r then
      if speakOk (speakMsg r) then
        checkGo speakOk nowTs rest (removeFirst r live) (fired ++ [r])
      else (live, fired, true)
    else checkGo speakOk nowTs rest live fired

/-- One poll pass of `_check_reminders` (reminders.py lines 133-141) over a
snapshot of the store: returns (store after the pass, reminders fired in
order, whether the thread crashed). -/
def check_reminders_pass (speakOk : List Char → Bool) (nowTs : Int)
    (st : List Reminder) : List Reminder × List Reminder × Bool :=
  checkGo speakOk nowTs st st []

/-- The polling loop of `_check_reminders` (reminders.py lines 132-143), one
entry of `times` per 30-second wake-up.  A crashed pass terminates the
thread: no later pass runs. -/
def check_reminders_loop (speakOk : List Char → Bool) :
    List Int → List Reminder → List Reminder × List Reminder × Bool
  | [], st => (st, [], false)
  | t :: ts, st =>
    match check_reminders_pass speakOk t st with
    | (st2, fired, true) => (st2, fired, true)
    | (st2, fired, false) =>
      match check_reminders_loop speakOk ts st2 with
      | (st3, fired2, c) => (st3, fired ++ fired2, c)

/-!  Persistence (reminders.py `save_reminders` / `load_reminders`).
The JSON file is modelled at the value level: `json.dump` / `json.load`
round-trip strings and epoch numbers of this data exactly. -/

/-- JSON values as needed by the reminders file. -/
inductive Json where
  | jstr : List Char → Json
  | jnum : Int → Json
  | jarr : List Json → Json
  | jobj : List (List Char × Json) → Json

/-- The JSON object written for one reminder (reminders.py lines 95-99). -/
def reminderToJson (r : Reminder) : Json :=
  .jobj [(cstr "task", .jstr r.task), (cstr "time", .jstr r.time),
         (cstr "timestamp", .jnum r.timestamp)]

/-- `save_reminders` (reminders.py lines 145-151): dump the in-memory list. -/
def save_reminders (st : List Reminder) : Json :=
  .jarr (st.map reminderToJson)

/-- Python dict key lookup on a JSON object. -/
def jsonField (key : List Char) : List (List Char × Json) → Option Json
  | [] => none
  | (k, v) :: rest => if k = key then some v else jsonField key rest

/-- Reading one loaded dict back as a reminder record, via the key accesses
the program performs (`reminder["task"]`, `reminder["time"]`,
`reminder["timestamp"]`). -/
def reminderOfJson : Json → Option Reminder
  | .jobj fields =>
    match jsonField (cstr "task") fields, jsonField (cstr "time") fields,
          jsonField (cstr "timestamp") fields with
    | some (.jstr t), some (.jstr tm), some (.jnum ts) => some ⟨t, tm, ts⟩
    | _, _, _ => none
  | _ => none

/-- Decoding the loaded JSON array element-wise. -/
def loadList : List Json → Option (List Reminder)
  | [] => some []
  | j :: rest =>
    match reminderOfJson j, loadList rest with
    | some r, some rs => some (r :: rs)
    | _, _ => none

/-- `load_reminders` (reminders.py lines 153-161): reconstruct the in-memory
list from the stored JSON value. -/
def load_reminders : Json → Option (List Reminder)
  | .jarr items => loadList items
  | _ => none

/-!  The command dispatcher (main.py, `process_command` and
`_handle_set_reminder`). -/

/-- The time-introducing keywords (main.py line 123). -/
def time_keywords : List (List Char) := [cstr "at", cstr "on", cstr "by"]

/-- The task-introducing keywords (main.py line 124). -/
def task_keywords : List (List Char) := [cstr "to", cstr "about", cstr "that"]

/-- First keyword of `kws` contained (as a substring) in `s` — the shape of
the `for keyword in ...: if keyword in ...:` loops of
`_handle_set_reminder`. -/
def findFirstContained (kws : List (List Char)) (s : List Char) :
    Option (List Char) :=
  kws.find? fun kw => containsSub kw s

/-- The time-first pass of `_handle_set_reminder` (main.py lines 130-143):
split on the first occurring time keyword, then split the remainder on the
first occurring task keyword.  Result: (time_part, task_part), `none` for a
slot the pass never assigns.  (The inner `splitOnce` calls cannot return
`none`: the keyword was just found by containment.) -/
def slotsPass1 (command : List Char) : Option (List Char) × Option (List Char) :=
  match findFirstContained time_keywords command with
  | none => (none, none)
  | some kw =>
    match splitOnce kw command with
    | none => (none, none)
    | some (_, post) =>
      let tp := pyStrip post
      match findFirstContained task_keywords tp with
      | none => (some tp, none)
      | some tkw =>
        match splitOnce tkw tp with
        | none => (some tp, none)
        | some (pre2, post2) => (some (pyStrip pre2), some (pyStrip post2))

/-- The task-first fallback pass of `_handle_set_reminder` (main.py lines
145-158), run on the current slot values `cur`: split the whole command on
the first occurring task keyword; the part after it becomes the task; the
time is re-extracted from the part before it only if a time keyword occurs
there, otherwise the previous time value (possibly set by the first pass)
is kept. -/
def slotsPass2 (command : List Char)
    (cur : Option (List Char) × Option (List Char)) :
    Option (List Char) × Option (List Char) :=
  match findFirstContained task_keywords command with
  | none => cur
  | some tkw =>
    match splitOnce tkw command with
    | none => cur
    | some (pre, post) =>
      let taskP := pyStrip post
      let timeP :=
        match findFirstContained time_keywords pre with
        | none => cur.1
        | some kw =>
          match splitOnce kw pre with
          | none => cur.1
          | some (_, post2) => some (pyStrip post2)
      (timeP, some taskP)

/-- Python falsiness of a slot value: unassigned (`None`) or empty string
(`if not time_part or not task_part`, main.py lines 146 and 160). -/
def falsyS : Option (List Char) → Bool
  | none => true
  | some s => s.isEmpty

/-- The complete slot extraction of `_handle_set_reminder` (main.py lines
122-158): the time-first pass, then — when either slot is falsy — the
task-first fallback pass.  Returns (time slot, task slot). -/
def extractSlots (command : List Char) : Option (List Char) × Option (List Char) :=
  let r1 := slotsPass1 command
  if falsyS r1.1 || falsyS r1.2 then slotsPass2 command r1 else r1

/-- Spoken message of main.py line 161 (punctuation simplified). -/
def rephraseMsg : List Char :=
  cstr "I could not understand the reminder command. Please try again with a format like remind me at 4pm to water the plants"

/-- Spoken message of main.py line 166 (punctuation simplified). -/
def confirmMsg (taskP timeP : List Char) : List Char :=
  cstr "I will remind you about " ++ taskP ++ cstr " at " ++ timeP

/-- Spoken message of main.py line 168 (punctuation simplified). -/
def badTimeMsg : List Char :=
  cstr "I could not set that reminder. Please try again with a valid time format like 4pm or 2:30 pm"

/-- `_handle_set_reminder` (main.py lines 119-172): extract the slots; if
either is falsy ask to rephrase (store untouched); otherwise call
`add_reminder(task_part, time_part)` and report its outcome.  Returns the
store after the call and the spoken messages. -/
def handle_set_reminder (command : List Char) (nowDay : Int) (nowMicro : Nat)
    (st : List Reminder) : List Reminder × List (List Char) :=
  let slots := extractSlots command
  if falsyS slots.1 || falsyS slots.2 then (st, [rephraseMsg])
  else
    match slots with
    | (some timeP, some taskP) =>
      match add_reminder taskP timeP nowDay nowMicro st with
      | (true, st2, _) => (st2, [confirmMsg taskP timeP])
      | (false, _, _) => (st, [badTimeMsg])
    | _ => (st, [rephraseMsg])

/-- Messages of `_handle_list_reminders` (main.py lines 174-182),
punctuation simplified. -/
def listMsgs (st : List Reminder) : List (List Char) :=
  if st.isEmpty then [cstr "You do not have any reminders set."]
  else cstr "Here are your reminders:" ::
    st.map fun r => r.task ++ cstr " at " ++ r.time

/-- `process_command` (main.py lines 60-117): lower-case the command and
route on substring containment, in source order.  Returns (the boolean
result, the reminder store after dispatch, spoken messages of the reminder
branches).  The clean/notes/pdf/help handlers interact only with the voice,
file-manager and notes collaborators — they never touch the reminder store —
so they are modelled as store-neutral; their collaborator dialogue is not
modelled. -/
def process_command (command : List Char) (nowDay : Int) (nowMicro : Nat)
    (st : List Reminder) : Bool × List Reminder × List (List Char) :=
  let c := pyLower command
  if containsSub (cstr "remind") c || containsSub (cstr "reminder") c then
    if containsSub (cstr "list") c then (true, st, listMsgs st)
    else
      match handle_set_reminder c nowDay nowMicro st with
      | (st2, msgs) => (true, st2, msgs)
  else if containsSub (cstr "clean") c then (true, st, [])
  else if containsSub (cstr "note") c || containsSub (cstr "notes") c then
    (true, st, [])
  else if containsSub (cstr "pdf") c then (true, st, [])
  else if containsSub (cstr "help") c then (true, st, [])
  else (false, st, [cstr "I am sorry, I did not understand that command."])

/-!  Concurrency model for the store mutations.  `add_reminder` runs on the
foreground thread and performs `self.reminders.append(...)` then
`self.save_reminders()` (reminders.py lines 101-102); a fire in
`_check_reminders` runs on the background thread and performs
`self.reminders.remove(...)` then `self.save_reminders()` (lines 140-141).
`reminders.py` constructs no lock of any kind, so the thread scheduler may
realise any interleaving of the two step sequences. -/

/-- Atomic steps on the shared reminder collection and its backing file. -/
inductive StoreAction where
  | appendMem : Reminder → StoreAction
  | removeMem : Reminder → StoreAction
  | writeDisk : StoreAction
deriving DecidableEq

/-- The step sequence of one `add_reminder` mutation (lines 101-102). -/
def addCriticalSteps (r : Reminder) : List StoreAction :=
  [.appendMem r, .writeDisk]

/-- The step sequence of one fire in `_check_reminders` (lines 140-141). -/
def fireCriticalSteps (r : Reminder) : List StoreAction :=
  [.removeMem r, .writeDisk]

/-- `isShuffle xs ys zs`: `zs` is an interleaving of `xs` and `ys` (each
kept in order) — the schedules the two unsynchronised threads can produce. -/
def isShuffle {α : Type} [DecidableEq α] : List α → List α → List α → Bool
  | [], [], [] => true
  | _, _, [] => false
  | xs, ys, z :: zs =>
    (match xs with
     | x :: xs2 => decide (x = z) && isShuffle xs2 ys zs
     | [] => false)
    ||
    (match ys with
     | y :: ys2 => decide (y = z) && isShuffle xs ys2 zs
     | [] => false)

/-!  Renderers for the supported clock-time formats (spec section 4.1).
Together they enumerate the valid strings of the eight supported formats:
12-hour with minutes and meridiem with or without separating space, 12-hour
hour-only with meridiem, bare `H:MM` / `H`, and 24-hour `HH:MM` / `HH`,
each with the hour optionally zero-padded and the meridiem in either case. -/

/-- A decimal digit character. -/
def digitChar (d : Nat) : Char := Char.ofNat (48 + d)

/-- Two-digit zero-padded decimal rendering (for minutes and padded hours). -/
def twoDigits (n : Nat) : List Char := [digitChar (n / 10), digitChar (n % 10)]

/-- Hour rendering, optionally zero-padded. -/
def renderHour (pad : Bool) (h : Nat) : List Char :=
  if h < 10 then (if pad then '0' :: [digitChar h] else [digitChar h])
  else twoDigits h

/-- Meridiem rendering: `ap = true` is pm, `up = true` upper-case. -/
def renderMer (up ap : Bool) : List Char :=
  if up then (if ap then cstr "PM" else cstr "AM")
  else (if ap then cstr "pm" else cstr "am")

/-- A 12-hour time with minutes and meridiem, e.g. `4:05 pm`, `4:05pm` (the
code lower-cases every command, so an upper-case meridiem reduces to these). -/
def render12full (sp ap : Bool) (h m : Nat) : List Char :=
  renderHour false h ++ ':' :: twoDigits m ++
    (if sp then [' '] else []) ++ renderMer false ap

/-- A 12-hour hour-only time with meridiem, e.g. `4 pm`, `4PM`, `04pm`. -/
def render12hour (pad sp up ap : Bool) (h : Nat) : List Char :=
  renderHour pad h ++ (if sp then [' '] else []) ++ renderMer up ap

/-- A bare `H:MM` / `HH:MM` time, e.g. `4:30`, `04:30`, `16:30`. -/
def renderBareHM (pad : Bool) (h m : Nat) : List Char :=
  renderHour pad h ++ ':' :: twoDigits m

/-- A bare `H` / `HH` hour, e.g. `4`, `04`, `16`. -/
def renderBareH (pad : Bool) (h : Nat) : List Char := renderHour pad h

/-- The 24-hour value denoted by a 12-hour time with meridiem. -/
def to24 (h : Nat) (ap : Bool) : Nat :=
  if ap then (if h = 12 then 12 else h + 12) else (if h = 12 then 0 else h)

/-!  Helper lemmas. -/

/-- Decoding inverts encoding for one reminder record. -/
theorem reminderOfJson_toJson (r : Reminder) :
    reminderOfJson (reminderToJson r) = some r := rfl

/-- Decoding inverts encoding element-wise. -/
theorem loadList_map_toJson : ∀ st : List Reminder,
    loadList (st.map reminderToJson) = some st := by
  intro st
  induction st with
  | nil => rfl
  | cons r rest ih =>
    simp only [List.map_cons, loadList, reminderOfJson_toJson, ih]

/-- `remove` of an element present behind a prefix of non-equal elements. -/
theorem removeFirst_append_cons (r : Reminder) (kept rest : List Reminder)
    (h : ∀ x ∈ kept, x ≠ r) :
    removeFirst r (kept ++ r :: rest) = kept ++ rest := by
  induction kept with
  | nil => simp [removeFirst]
  | cons a as ih =>
    have ha : a ≠ r := h a (by simp)
    simp only [List.cons_append, removeFirst, if_neg ha, List.append_eq]
    rw [ih fun x hx => h x (by simp [hx])]

/-- Invariant of the `_check_reminders` walk when the callback never raises:
if `live` is the already-kept (not due) prefix followed by the part of the
snapshot still to visit, the walk keeps exactly the not-due reminders and
fires exactly the due ones, in order. -/
theorem checkGo_all_fire (nowTs : Int) :
    ∀ (s kept fired : List Reminder),
      (∀ x ∈ kept, isDue nowTs x = false) →
      checkGo (fun _ => true) nowTs s (kept ++ s) fired =
        (kept ++ s.filter (fun r => !isDue nowTs r),
         fired ++ s.filter (fun r => isDue nowTs r), false) := by
  intro s
  induction s with
  | nil =>
    intro kept fired hk
    simp [checkGo]
  | cons r rest ih =>
    intro kept fired hk
    cases hr : isDue nowTs r with
    | true =>
      have hne : ∀ x ∈ kept, x ≠ r := by
        intro x hx he
        have h1 := hk x hx
        rw [he, hr] at h1
        exact Bool.noConfusion h1
      simp only [checkGo, hr, if_true]
      rw [removeFirst_append_cons r kept rest hne, ih kept (fired ++ [r]) hk]
      simp [List.filter_cons, hr]
    | false =>
      have hk2 : ∀ x ∈ kept ++ [r], isDue nowTs x = false := by
        intro x hx
        rcases List.mem_append.mp hx with h | h
        · exact hk x h
        · simp only [List.mem_singleton] at h
          rw [h]; exact hr
      simp only [checkGo, hr]
      rw [show kept ++ r :: rest = (kept ++ [r]) ++ rest by simp,
        ih (kept ++ [r]) fired hk2]
      simp [List.filter_cons, hr]

/-!  Claim theorems. -/

/-- Claim C1 (corrected).  Slot extraction on
"remind me at 4pm to water the plants" yields time slot "4pm" and task slot
"water the plants", and dispatching that command stores a reminder for
"water the plants" at 16:00 of the current day.  On
"remind me to water the plants at 4pm", however, the time-first pass splits
on the substring "at" inside "water" and the task-first fallback keeps that
stale time slot, yielding time slot "er the plants at 4pm" and task slot
"water the plants at 4pm" — not the claimed slots. -/
theorem c1_slot_extraction_amended :
    extractSlots (cstr "remind me at 4pm to water the plants") =
      (some (cstr "4pm"), some (cstr "water the plants")) ∧
    process_command (cstr "remind me at 4pm to water the plants") 0 0 [] =
      (true, [⟨cstr "water the plants", strftimeDisplay 0 16 0, 57600000000⟩],
       [confirmMsg (cstr "water the plants") (cstr "4pm")]) ∧
    extractSlots (cstr "remind me to water the plants at 4pm") =
      (some (cstr "er the plants at 4pm"), some (cstr "water the plants at 4pm")) := by
  refine ⟨by decide, by decide, by decide⟩

/-- Claim C1, counterexample: the task-first fallback path does not yield
time "4pm" and task "water the plants" for
"remind me to water the plants at 4pm". -/
theorem c1_slot_extraction_counterexample :
    extractSlots (cstr "remind me to water the plants at 4pm") ≠
      (some (cstr "4pm"), some (cstr "water the plants")) := by decide

/-- Claim C2 (code bug).  `_check_reminders` has no handler around
`self.speak`: with two due reminders where the callback raises on the first
announcement (and would succeed on the second), the pass fires nothing,
removes nothing, and the background thread crashes — the second due
reminder is never fired, neither in that pass nor in the later pass (the
second entry of the poll-instant list), which never runs. -/
theorem c2_callback_error_kills_loop :
    check_reminders_loop (fun s => !(s == cstr "Reminder: take medicine"))
      [100, 200]
      [⟨cstr "take medicine", cstr "d1", 10⟩, ⟨cstr "call mom", cstr "d2", 20⟩] =
    ([⟨cstr "take medicine", cstr "d1", 10⟩, ⟨cstr "call mom", cstr "d2", 20⟩],
     [], true) := by decide

/-- Claim C3 (corrected).  For every successful `add_reminder`, the stored
fire instant is today at the parsed time, bumped by 24 hours only when that
instant is strictly before now (reminders.py line 92 uses `<`, not `≤`).
Hence `fireAt ≥ now` always, with equality exactly when the combined
instant equals now — the boundary case is stored with `fireAt = now`, not
in the future. -/
theorem c3_fire_instant_amended (task tstr : List Char) (nowDay : Int)
    (nowMicro : Nat) (st : List Reminder) (h m : Nat)
    (hmic : nowMicro < 86400000000)
    (hp : parse_time_str tstr = some (h, m)) :
    (add_reminder task tstr nowDay nowMicro st).1 = true ∧
    ∃ r, (add_reminder task tstr nowDay nowMicro st).2.1 = st ++ [r] ∧
      nowDay * 86400000000 + (nowMicro : Int) ≤ r.timestamp ∧
      (r.timestamp = nowDay * 86400000000 + (nowMicro : Int) ↔
        ((nowMicro : Int) = timeMicros h m)) := by
  unfold add_reminder
  rw [hp]
  refine ⟨rfl, ⟨_, rfl, ?_, ?_⟩⟩
  · dsimp only
    split_ifs with hlt
    · unfold microsPerDay timeMicros at *
      push_cast at *
      omega
    · unfold microsPerDay timeMicros at *
      push_cast at *
      omega
  · dsimp only
    split_ifs with hlt
    · unfold microsPerDay timeMicros at *
      push_cast at *
      omega
    · unfold microsPerDay timeMicros at *
      push_cast at *
      omega

/-- Claim C3, witness: the spec's own example — store "water plants" at
"4:00 pm" when now is 5:00 PM (61200000000 microseconds of day 0): the add
succeeds and the stored fire instant is at or after now (here strictly
after: 4:00 PM next day). -/
theorem c3_fire_instant_witness :
    (add_reminder (cstr "water plants") (cstr "4:00 pm") 0 61200000000 []).1 = true ∧
    ∃ r, (add_reminder (cstr "water plants") (cstr "4:00 pm") 0 61200000000 []).2.1 = [] ++ [r] ∧
      0 * 86400000000 + ((61200000000 : Nat) : Int) ≤ r.timestamp ∧
      (r.timestamp = 0 * 86400000000 + ((61200000000 : Nat) : Int) ↔
        (((61200000000 : Nat) : Int) = timeMicros 16 0)) :=
  c3_fire_instant_amended (cstr "water plants") (cstr "4:00 pm") 0 61200000000 []
    16 0 (by decide) (by decide)

/-- Claim C3, counterexample: when the combined instant equals now exactly
(now = 4:00 PM, reminder time "4 pm"), the reminder is stored with
`fireAt = now`, refuting `fireAt > creation instant` in the boundary case. -/
theorem c3_fire_instant_counterexample :
    ∃ r, add_reminder (cstr "water plants") (cstr "4 pm") 0 57600000000 [] =
      (true, [r], true) ∧
    ¬ (0 * 86400000000 + ((57600000000 : Nat) : Int) < r.timestamp) :=
  ⟨⟨cstr "water plants", strftimeDisplay 0 16 0, 57600000000⟩, by decide, by decide⟩

/-- Claim C4 (confirmed).  One poll pass of `_check_reminders` (with a
callback that returns normally) leaves in the store exactly the reminders
whose fire instant is in the future, and fires — exactly once each, in
store order — exactly the reminders whose fire instant is at or before the
current instant; the thread does not crash. -/
theorem c4_poll_pass_fires_due_exactly_once :
    ∀ (nowTs : Int) (st : List Reminder),
      check_reminders_pass (fun _ => true) nowTs st =
        (st.filter (fun r => !isDue nowTs r),
         st.filter (fun r => isDue nowTs r), false) := by
  intro nowTs st
  have h := checkGo_all_fire nowTs st [] [] (by simp)
  simpa [check_reminders_pass] using h

/-- Claim C7 (confirmed).  When time parsing fails, `add_reminder` returns
`False` and changes nothing: the in-memory list is returned untouched and
`save_reminders` is never reached. -/
theorem c7_parse_failure_changes_nothing (task tstr : List Char)
    (nowDay : Int) (nowMicro : Nat) (st : List Reminder)
    (h : parse_time_str tstr = none) :
    add_reminder task tstr nowDay nowMicro st = (false, st, false) := by
  unfold add_reminder
  rw [h]

/-- Claim C7, witness: "later" contains no parsable time, so adding with it
fails and leaves the store untouched. -/
theorem c7_parse_failure_witness :
    add_reminder (cstr "water plants") (cstr "later") 0 0
      [⟨cstr "a", cstr "d", 5⟩] =
    (false, [⟨cstr "a", cstr "d", 5⟩], false) :=
  c7_parse_failure_changes_nothing (cstr "water plants") (cstr "later") 0 0
    [⟨cstr "a", cstr "d", 5⟩] (by decide)

/-- Claim C8 (confirmed).  Persistence round-trips: saving any in-memory
reminder list and reloading it reproduces the same reminders — same task,
same fire instant, same order. -/
theorem c8_persistence_roundtrip :
    ∀ st : List Reminder, load_reminders (save_reminders st) = some st := by
  intro st
  simp only [save_reminders, load_reminders, loadList_map_toJson]

/-- Claim C9 (confirmed).  `remove_reminder` deletes exactly the first
reminder whose task matches case-insensitively (`List.eraseP` of the match
predicate), leaving all others unchanged; it persists exactly when a match
exists, and is a no-op on the store when none does (then `eraseP` is the
identity and the saved flag is `false`). -/
theorem c9_remove_first_case_insensitive :
    ∀ (task : List Char) (st : List Reminder),
      remove_reminder task st =
        ((st.find? (matchesTask task)).isSome,
         st.eraseP (matchesTask task),
         (st.find? (matchesTask task)).isSome) := by
  intro task st
  induction st with
  | nil => simp [remove_reminder]
  | cons r rest ih =>
    cases h : matchesTask task r with
    | true => simp [remove_reminder, h, List.find?_cons, List.eraseP_cons]
    | false => simp [remove_reminder, h, List.find?_cons, List.eraseP_cons, ih]

/-- Claim C5 (code bug).  `reminders.py` constructs no lock, so the two
step sequences — append + persistence write on the foreground thread,
remove + persistence write on the background thread — may interleave
non-serially: the schedule below is a possible interleaving of the two
mutation sequences in which the append lands between the fire's removal and
the fire's persistence write, i.e. the two critical sections overlap. -/
theorem c5_unsynchronised_interleaving :
    isShuffle (addCriticalSteps ⟨cstr "a", cstr "d", 1⟩)
      (fireCriticalSteps ⟨cstr "b", cstr "d", 2⟩)
      [StoreAction.removeMem ⟨cstr "b", cstr "d", 2⟩,
       StoreAction.appendMem ⟨cstr "a", cstr "d", 1⟩,
       StoreAction.writeDisk, StoreAction.writeDisk] = true ∧
    [StoreAction.removeMem ⟨cstr "b", cstr "d", 2⟩,
     StoreAction.appendMem ⟨cstr "a", cstr "d", 1⟩,
     StoreAction.writeDisk, StoreAction.writeDisk] ≠
      addCriticalSteps ⟨cstr "a", cstr "d", 1⟩ ++
        fireCriticalSteps ⟨cstr "b", cstr "d", 2⟩ ∧
    [StoreAction.removeMem ⟨cstr "b", cstr "d", 2⟩,
     StoreAction.appendMem ⟨cstr "a", cstr "d", 1⟩,
     StoreAction.writeDisk, StoreAction.writeDisk] ≠
      fireCriticalSteps ⟨cstr "b", cstr "d", 2⟩ ++
        addCriticalSteps ⟨cstr "a", cstr "d", 1⟩ := by
  refine ⟨by decide, by decide, by decide⟩

/-- Helper: a command containing "remind" and not "list" is routed to
`_handle_set_reminder` and reported as handled. -/
theorem process_command_remind_route (command : List Char) (nowDay : Int)
    (nowMicro : Nat) (st : List Reminder)
    (hr : containsSub (cstr "remind") (pyLower command) = true ∨
          containsSub (cstr "reminder") (pyLower command) = true)
    (hl : containsSub (cstr "list") (pyLower command) = false) :
    process_command command nowDay nowMicro st =
      (true, (handle_set_reminder (pyLower command) nowDay nowMicro st).1,
       (handle_set_reminder (pyLower command) nowDay nowMicro st).2) := by
  have hcond : (containsSub (cstr "remind") (pyLower command) ||
      containsSub (cstr "reminder") (pyLower command)) = true := by
    rcases hr with h | h <;> simp [h]
  unfold process_command
  simp only [hcond, hl, if_true, Bool.false_eq_true, if_false]

/-- Helper: falsy slots make `_handle_set_reminder` a store no-op that asks
to rephrase. -/
theorem handle_set_reminder_falsy (c : List Char) (nowDay : Int)
    (nowMicro : Nat) (st : List Reminder)
    (tp kp : Option (List Char))
    (hs : extractSlots c = (tp, kp))
    (hf : (falsyS tp || falsyS kp) = true) :
    handle_set_reminder c nowDay nowMicro st = (st, [rephraseMsg]) := by
  unfold handle_set_reminder
  rw [hs]
  simp [hf]

/-- Helper: non-falsy slots whose time string does not parse make
`_handle_set_reminder` a store no-op that reports a bad time format. -/
theorem handle_set_reminder_badtime (c : List Char) (nowDay : Int)
    (nowMicro : Nat) (st : List Reminder) (tp kp : List Char)
    (hs : extractSlots c = (some tp, some kp))
    (htp : tp.isEmpty = false) (hkp : kp.isEmpty = false)
    (hparse : parse_time_str tp = none) :
    handle_set_reminder c nowDay nowMicro st = (st, [badTimeMsg]) := by
  have hadd : add_reminder kp tp nowDay nowMicro st = (false, st, false) := by
    unfold add_reminder
    rw [hparse]
  unfold handle_set_reminder
  rw [hs]
  simp only [falsyS, htp, hkp, Bool.or_self, Bool.false_eq_true, if_false]
  rw [hadd]

/-- Claim C10 (confirmed).  Any command containing "remind" or "reminder"
but not "list" is reported handled (`process_command` returns `True`);
when slot extraction leaves a falsy slot, or both slots are produced but
the time string fails to parse, the store is unchanged and exactly one
rephrase/error message is spoken — yet the result is still `True`. -/
theorem c10_remind_always_handled (command : List Char) (nowDay : Int)
    (nowMicro : Nat) (st : List Reminder)
    (hr : containsSub (cstr "remind") (pyLower command) = true ∨
          containsSub (cstr "reminder") (pyLower command) = true)
    (hl : containsSub (cstr "list") (pyLower command) = false) :
    (process_command command nowDay nowMicro st).1 = true ∧
    (∀ tp kp, extractSlots (pyLower command) = (tp, kp) →
      (falsyS tp || falsyS kp) = true →
      process_command command nowDay nowMicro st = (true, st, [rephraseMsg])) ∧
    (∀ tp kp, extractSlots (pyLower command) = (some tp, some kp) →
      tp.isEmpty = false → kp.isEmpty = false →
      parse_time_str tp = none →
      process_command command nowDay nowMicro st = (true, st, [badTimeMsg])) := by
  refine ⟨?_, ?_, ?_⟩
  · rw [process_command_remind_route command nowDay nowMicro st hr hl]
  · intro tp kp hs hf
    rw [process_command_remind_route command nowDay nowMicro st hr hl,
      handle_set_reminder_falsy (pyLower command) nowDay nowMicro st tp kp hs hf]
  · intro tp kp hs htp hkp hparse
    rw [process_command_remind_route command nowDay nowMicro st hr hl,
      handle_set_reminder_badtime (pyLower command) nowDay nowMicro st tp kp hs htp hkp hparse]

/-- Claim C10, witness: "remind me please" (no time or task keyword at all)
is handled, changes nothing and asks for a rephrase; and
"remind me to sleep at around then" extracts slots but its time string does
not parse, so it too is handled with only an error message. -/
theorem c10_remind_always_handled_witness :
    process_command (cstr "remind me please") 0 0 [] =
      (true, [], [rephraseMsg]) :=
  (c10_remind_always_handled (cstr "remind me please") 0 0 []
      (Or.inl (by decide)) (by decide)).2.1 none none (by decide) (by decide)

set_option synthInstance.maxSize 1000 in
/-- Hour 1 slice of claim C6: all 12-hour renderings with minutes. -/
theorem c6full_1 : ∀ m ∈ List.range 60, ∀ sp ∈ [true, false], ∀ ap ∈ [true, false],
    parse_time_str (render12full sp ap 1 m) = some (to24 1 ap, m) := by
  decide
set_option synthInstance.maxSize 1000 in
/-- Hour 2 slice of claim C6: all 12-hour renderings with minutes. -/
theorem c6full_2 : ∀ m ∈ List.range 60, ∀ sp ∈ [true, false], ∀ ap ∈ [true, false],
    parse_time_str (render12full sp ap 2 m) = some (to24 2 ap, m) := by
  decide
set_option synthInstance.maxSize 1000 in
/-- Hour 3 slice of claim C6: all 12-hour renderings with minutes. -/
theorem c6full_3 : ∀ m ∈ List.range 60, ∀ sp ∈ [true, false], ∀ ap ∈ [true, false],
    parse_time_str (render12full sp ap 3 m) = some (to24 3 ap, m) := by
  decide
set_option synthInstance.maxSize 1000 in
/-- Hour 4 slice of claim C6: all 12-hour renderings with minutes. -/
theorem c6full_4 : ∀ m ∈ List.range 60, ∀ sp ∈ [true, false], ∀ ap ∈ [true, false],
    parse_time_str (render12full sp ap 4 m) = some (to24 4 ap, m) := by
  decide
set_option synthInstance.maxSize 1000 in
/-- Hour 5 slice of claim C6: all 12-hour renderings with minutes. -/
theorem c6full_5 : ∀ m ∈ List.range 60, ∀ sp ∈ [true, false], ∀ ap ∈ [true, false],
    parse_time_str (render12full sp ap 5 m) = some (to24 5 ap, m) := by
  decide
set_option synthInstance.maxSize 1000 in
/-- Hour 6 slice of claim C6: all 12-hour renderings with minutes. -/
theorem c6full_6 : ∀ m ∈ List.range 60, ∀ sp ∈ [true, false], ∀ ap ∈ [true, false],
    parse_time_str (render12full sp ap 6 m) = some (to24 6 ap, m) := by
  decide
set_option synthInstance.maxSize 1000 in
/-- Hour 7 slice of claim C6: all 12-hour renderings with minutes. -/
theorem c6full_7 : ∀ m ∈ List.range 60, ∀ sp ∈ [true, false], ∀ ap ∈ [true, false],
    parse_time_str (render12full sp ap 7 m) = some (to24 7 ap, m) := by
  decide
set_option synthInstance.maxSize 1000 in
/-- Hour 8 slice of claim C6: all 12-hour renderings with minutes. -/
theorem c6full_8 : ∀ m ∈ List.range 60, ∀ sp ∈ [true, false], ∀ ap ∈ [true, false],
    parse_time_str (render12full sp ap 8 m) = some (to24 8 ap, m) := by
  decide
set_option synthInstance.maxSize 1000 in
/-- Hour 9 slice of claim C6: all 12-hour renderings with minutes. -/
theorem c6full_9 : ∀ m ∈ List.range 60, ∀ sp ∈ [true, false], ∀ ap ∈ [true, false],
    parse_time_str (render12full sp ap 9 m) = some (to24 9 ap, m) := by
  decide
set_option synthInstance.maxSize 1000 in
/-- Hour 10 slice of claim C6: all 12-hour renderings with minutes. -/
theorem c6full_10 : ∀ m ∈ List.range 60, ∀ sp ∈ [true, false], ∀ ap ∈ [true, false],
    parse_time_str (render12full sp ap 10 m) = some (to24 10 ap, m) := by
  decide
set_option synthInstance.maxSize 1000 in
/-- Hour 11 slice of claim C6: all 12-hour renderings with minutes. -/
theorem c6full_11 : ∀ m ∈ List.range 60, ∀ sp ∈ [true, false], ∀ ap ∈ [true, false],
    parse_time_str (render12full sp ap 11 m) = some (to24 11 ap, m) := by
  decide
set_option synthInstance.maxSize 1000 in
/-- Hour 12 slice of claim C6: all 12-hour renderings with minutes. -/
theorem c6full_12 : ∀ m ∈ List.range 60, ∀ sp ∈ [true, false], ∀ ap ∈ [true, false],
    parse_time_str (render12full sp ap 12 m) = some (to24 12 ap, m) := by
  decide
set_option synthInstance.maxSize 1000 in
/-- Hour-only slice of claim C6: all 12-hour hour-only renderings. -/
theorem c6houronly : ∀ h ∈ List.range 13, 1 ≤ h →
    ∀ pad ∈ [true, false], ∀ sp ∈ [true, false], ∀ up ∈ [true, false],
      ∀ ap ∈ [true, false],
        parse_time_str (render12hour pad sp up ap h) = some (to24 h ap, 0) := by
  decide
set_option synthInstance.maxSize 1000 in
/-- Hour 0 slice of claim C6: bare hour-and-minutes renderings. -/
theorem c6barehm_0 : ∀ m ∈ List.range 60, ∀ pad ∈ [true, false],
    parse_time_str (renderBareHM pad 0 m) = some (0, m) := by
  decide
set_option synthInstance.maxSize 1000 in
/-- Hour 1 slice of claim C6: bare hour-and-minutes renderings. -/
theorem c6barehm_1 : ∀ m ∈ List.range 60, ∀ pad ∈ [true, false],
    parse_time_str (renderBareHM pad 1 m) = some (1, m) := by
  decide
set_option synthInstance.maxSize 1000 in
/-- Hour 2 slice of claim C6: bare hour-and-minutes renderings. -/
theorem c6barehm_2 : ∀ m ∈ List.range 60, ∀ pad ∈ [true, false],
    parse_time_str (renderBareHM pad 2 m) = some (2, m) := by
  decide
set_option synthInstance.maxSize 1000 in
/-- Hour 3 slice of claim C6: bare hour-and-minutes renderings. -/
theorem c6barehm_3 : ∀ m ∈ List.range 60, ∀ pad ∈ [true, false],
    parse_time_str (renderBareHM pad 3 m) = some (3, m) := by
  decide
set_option synthInstance.maxSize 1000 in
/-- Hour 4 slice of claim C6: bare hour-and-minutes renderings. -/
theorem c6barehm_4 : ∀ m ∈ List.range 60, ∀ pad ∈ [true, false],
    parse_time_str (renderBareHM pad 4 m) = some (4, m) := by
  decide
set_option synthInstance.maxSize 1000 in
/-- Hour 5 slice of claim C6: bare hour-and-minutes renderings. -/
theorem c6barehm_5 : ∀ m ∈ List.range 60, ∀ pad ∈ [true, false],
    parse_time_str (renderBareHM pad 5 m) = some (5, m) := by
  decide
set_option synthInstance.maxSize 1000 in
/-- Hour 6 slice of claim C6: bare hour-and-minutes renderings. -/
theorem c6barehm_6 : ∀ m ∈ List.range 60, ∀ pad ∈ [true, false],
    parse_time_str (renderBareHM pad 6 m) = some (6, m) := by
  decide
set_option synthInstance.maxSize 1000 in
/-- Hour 7 slice of claim C6: bare hour-and-minutes renderings. -/
theorem c6barehm_7 : ∀ m ∈ List.range 60, ∀ pad ∈ [true, false],
    parse_time_str (renderBareHM pad 7 m) = some (7, m) := by
  decide
set_option synthInstance.maxSize 1000 in
/-- Hour 8 slice of claim C6: bare hour-and-minutes renderings. -/
theorem c6barehm_8 : ∀ m ∈ List.range 60, ∀ pad ∈ [true, false],
    parse_time_str (renderBareHM pad 8 m) = some (8, m) := by
  decide
set_option synthInstance.maxSize 1000 in
/-- Hour 9 slice of claim C6: bare hour-and-minutes renderings. -/
theorem c6barehm_9 : ∀ m ∈ List.range 60, ∀ pad ∈ [true, false],
    parse_time_str (renderBareHM pad 9 m) = some (9, m) := by
  decide
set_option synthInstance.maxSize 1000 in
/-- Hour 10 slice of claim C6: bare hour-and-minutes renderings. -/
theorem c6barehm_10 : ∀ m ∈ List.range 60, ∀ pad ∈ [true, false],
    parse_time_str (renderBareHM pad 10 m) = some (10, m) := by
  decide
set_option synthInstance.maxSize 1000 in
/-- Hour 11 slice of claim C6: bare hour-and-minutes renderings. -/
theorem c6barehm_11 : ∀ m ∈ List.range 60, ∀ pad ∈ [true, false],
    parse_time_str (renderBareHM pad 11 m) = some (11, m) := by
  decide
set_option synthInstance.maxSize 1000 in
/-- Hour 12 slice of claim C6: bare hour-and-minutes renderings. -/
theorem c6barehm_12 : ∀ m ∈ List.range 60, ∀ pad ∈ [true, false],
    parse_time_str (renderBareHM pad 12 m) = some (12, m) := by
  decide
set_option synthInstance.maxSize 1000 in
/-- Hour 13 slice of claim C6: bare hour-and-minutes renderings. -/
theorem c6barehm_13 : ∀ m ∈ List.range 60, ∀ pad ∈ [true, false],
    parse_time_str (renderBareHM pad 13 m) = some (13, m) := by
  decide
set_option synthInstance.maxSize 1000 in
/-- Hour 14 slice of claim C6: bare hour-and-minutes renderings. -/
theorem c6barehm_14 : ∀ m ∈ List.range 60, ∀ pad ∈ [true, false],
    parse_time_str (renderBareHM pad 14 m) = some (14, m) := by
  decide
set_option synthInstance.maxSize 1000 in
/-- Hour 15 slice of claim C6: bare hour-and-minutes renderings. -/
theorem c6barehm_15 : ∀ m ∈ List.range 60, ∀ pad ∈ [true, false],
    parse_time_str (renderBareHM pad 15 m) = some (15, m) := by
  decide
set_option synthInstance.maxSize 1000 in
/-- Hour 16 slice of claim C6: bare hour-and-minutes renderings. -/
theorem c6barehm_16 : ∀ m ∈ List.range 60, ∀ pad ∈ [true, false],
    parse_time_str (renderBareHM pad 16 m) = some (16, m) := by
  decide
set_option synthInstance.maxSize 1000 in
/-- Hour 17 slice of claim C6: bare hour-and-minutes renderings. -/
theorem c6barehm_17 : ∀ m ∈ List.range 60, ∀ pad ∈ [true, false],
    parse_time_str (renderBareHM pad 17 m) = some (17, m) := by
  decide
set_option synthInstance.maxSize 1000 in
/-- Hour 18 slice of claim C6: bare hour-and-minutes renderings. -/
theorem c6barehm_18 : ∀ m ∈ List.range 60, ∀ pad ∈ [true, false],
    parse_time_str (renderBareHM pad 18 m) = some (18, m) := by
  decide
set_option synthInstance.maxSize 1000 in
/-- Hour 19 slice of claim C6: bare hour-and-minutes renderings. -/
theorem c6barehm_19 : ∀ m ∈ List.range 60, ∀ pad ∈ [true, false],
    parse_time_str (renderBareHM pad 19 m) = some (19, m) := by
  decide
set_option synthInstance.maxSize 1000 in
/-- Hour 20 slice of claim C6: bare hour-and-minutes renderings. -/
theorem c6barehm_20 : ∀ m ∈ List.range 60, ∀ pad ∈ [true, false],
    parse_time_str (renderBareHM pad 20 m) = some (20, m) := by
  decide
set_option synthInstance.maxSize 1000 in
/-- Hour 21 slice of claim C6: bare hour-and-minutes renderings. -/
theorem c6barehm_21 : ∀ m ∈ List.range 60, ∀ pad ∈ [true, false],
    parse_time_str (renderBareHM pad 21 m) = some (21, m) := by
  decide
set_option synthInstance.maxSize 1000 in
/-- Hour 22 slice of claim C6: bare hour-and-minutes renderings. -/
theorem c6barehm_22 : ∀ m ∈ List.range 60, ∀ pad ∈ [true, false],
    parse_time_str (renderBareHM pad 22 m) = some (22, m) := by
  decide
set_option synthInstance.maxSize 1000 in
/-- Hour 23 slice of claim C6: bare hour-and-minutes renderings. -/
theorem c6barehm_23 : ∀ m ∈ List.range 60, ∀ pad ∈ [true, false],
    parse_time_str (renderBareHM pad 23 m) = some (23, m) := by
  decide
set_option synthInstance.maxSize 1000 in
/-- Bare-hour slice of claim C6: all bare hour renderings. -/
theorem c6bareh : ∀ h ∈ List.range 24, ∀ pad ∈ [true, false],
    parse_time_str (renderBareH pad h) = some (h, 0) := by
  decide

set_option maxHeartbeats 1000000 in
/-- Claim C6 (confirmed).  Every valid clock-time string in the supported
formats parses, inside `add_reminder`, to the correct hour and minute:
12-hour with minutes and meridiem (with or without separating space),
12-hour hour-only with meridiem (hour optionally zero-padded, meridiem in
either case), bare `H:MM` / `HH:MM` and bare `H` / `HH` taken as given
(24-hour values, hour optionally zero-padded); and thanks to the strict
priority order of the formats, "16" parses as 16:00, not 4:00.  (The code
lower-cases every time string first, so mixed-case inputs reduce to these.) -/
theorem c6_time_formats_correct :
    (∀ h ∈ List.range 13, 1 ≤ h →
      ∀ m ∈ List.range 60, ∀ sp ∈ [true, false], ∀ ap ∈ [true, false],
        parse_time_str (render12full sp ap h m) = some (to24 h ap, m)) ∧
    (∀ h ∈ List.range 13, 1 ≤ h →
      ∀ pad ∈ [true, false], ∀ sp ∈ [true, false], ∀ up ∈ [true, false],
        ∀ ap ∈ [true, false],
          parse_time_str (render12hour pad sp up ap h) = some (to24 h ap, 0)) ∧
    (∀ h ∈ List.range 24,
      (∀ m ∈ List.range 60, ∀ pad ∈ [true, false],
        parse_time_str (renderBareHM pad h m) = some (h, m)) ∧
      (∀ pad ∈ [true, false],
        parse_time_str (renderBareH pad h) = some (h, 0))) ∧
    parse_time_str (cstr "16") = some (16, 0) := by
  refine ⟨?_, c6houronly, ?_, by decide⟩
  · intro h hm h1
    have hlt := List.mem_range.mp hm
    interval_cases h
    · exact c6full_1
    · exact c6full_2
    · exact c6full_3
    · exact c6full_4
    · exact c6full_5
    · exact c6full_6
    · exact c6full_7
    · exact c6full_8
    · exact c6full_9
    · exact c6full_10
    · exact c6full_11
    · exact c6full_12
  · intro h hm
    refine ⟨?_, c6bareh h hm⟩
    have hlt := List.mem_range.mp hm
    interval_cases h
    · exact c6barehm_0
    · exact c6barehm_1
    · exact c6barehm_2
    · exact c6barehm_3
    · exact c6barehm_4
    · exact c6barehm_5
    · exact c6barehm_6
    · exact c6barehm_7
    · exact c6barehm_8
    · exact c6barehm_9
    · exact c6barehm_10
    · exact c6barehm_11
    · exact c6barehm_12
    · exact c6barehm_13
    · exact c6barehm_14
    · exact c6barehm_15
    · exact c6barehm_16
    · exact c6barehm_17
    · exact c6barehm_18
    · exact c6barehm_19
    · exact c6barehm_20
    · exact c6barehm_21
    · exact c6barehm_22
    · exact c6barehm_23

/-- Claim C6, witness: instances of the theorem at concrete inputs —
"4:30 pm" parses as 16:30, "12am" as 00:00, "16:05" as 16:05 and "16" as
16:00 (not 4:00). -/
theorem c6_time_formats_witness :
    parse_time_str (render12full true true 4 30) = some (16, 30) ∧
    parse_time_str (render12hour false false false false 12) = some (0, 0) ∧
    parse_time_str (renderBareHM false 16 5) = some (16, 5) ∧
    parse_time_str (cstr "16") = some (16, 0) :=
  ⟨c6_time_formats_correct.1 4 (by decide) (by decide) 30 (by decide)
      true (by decide) true (by decide),
   c6_time_formats_correct.2.1 12 (by decide) (by decide) false (by decide)
      false (by decide) false (by decide) false (by decide),
   (c6_time_formats_correct.2.2.1 16 (by decide)).1 5 (by decide) false (by decide),
   c6_time_formats_correct.2.2.2⟩
